import Mathlib

/-!
Verification of the Supplier Performance Analytics Engine
(`api/analytics.js`, two revisions, and `api/dashboard.js`).

The SQL queries and JavaScript post-processing of the analytics routes are
embedded as pure Lean functions over explicit lists of `Product` and `Sale`
rows.  SQL `NULL` is modelled with `Option`, `LEFT JOIN` by explicit row
fan-out (one row per matching sale, or a single `none`-extended row when a
product has no matching sale), `SUM` ignores `NULL` operands and is `NULL`
on an empty operand set, `x / 0` and `x / NULL` are `NULL`, and
`ROUND(x, 2)` rounds half away from zero to two decimals, as MySQL does.
Dates are day numbers (integers); `CURDATE()` is an explicit `today`
parameter and `DATE_SUB(CURDATE(), INTERVAL d DAY)` is `today - d`.
-/

/-- A `Product` row.  `supplier_sold_price` is nullable (the insert route
stores `NULL` when the field is absent); the analytics queries read the
other columns as non-null numbers. -/
structure Product where
  id : ℕ
  store_id : ℕ
  title : String
  supplier_purchase_price : ℚ
  supplier_sold_price : Option ℚ
  stock_quantity : ℕ
  category : Option String
  created_at : ℤ
deriving Repr, DecidableEq

/-- A `ProductSales` row: one completed sale event. -/
structure Sale where
  id : ℕ
  product_id : ℕ
  quantity_sold : ℕ
  unit_price : ℚ
  total_sale_amount : ℚ
  profit : ℚ
  sale_date : ℤ
deriving Repr, DecidableEq

/-- MySQL `IFNULL(a, b)`. -/
def ifnull (a : Option ℚ) (b : ℚ) : ℚ := a.getD b

/-- MySQL `NULLIF(a, b)`: `NULL` when `a` is `NULL` or equals `b`. -/
def nullif (a : Option ℚ) (b : ℚ) : Option ℚ :=
  a.bind fun x => if x = b then none else some x

/-- MySQL aggregate `SUM` over one column of a result set: `NULL` operands
are ignored; the sum of an empty operand set is `NULL`. -/
def sqlSum (l : List (Option ℚ)) : Option ℚ :=
  if (l.filterMap id).isEmpty then none else some (l.filterMap id).sum

/-- MySQL division: `NULL` when either operand is `NULL` or the divisor
is zero. -/
def sqlDiv (a b : Option ℚ) : Option ℚ :=
  match a, b with
  | some x, some y => if y = 0 then none else some (x / y)
  | _, _ => none

/-- MySQL `ROUND(x, 2)` as an integer count of hundredths: round half away
from zero. -/
def mysqlRoundInt (x : ℚ) : ℤ :=
  if 0 ≤ x then ⌊x + 1 / 2⌋ else -⌊-x + 1 / 2⌋

/-- MySQL `ROUND(x, 2)`. -/
def mysqlRound2 (x : ℚ) : ℚ := (mysqlRoundInt (x * 100) : ℚ) / 100

/-- Window restriction placed on the `LEFT JOIN` of `ProductSales` in the
KPI query: the first revision of `GET /kpis` joins every sale
(window `none`), the second restricts the join to
`ps.sale_date >= DATE_SUB(CURDATE(), INTERVAL 30 DAY)` (window `some 30`). -/
def inWindow (today : ℤ) (window : Option ℤ) (s : Sale) : Bool :=
  match window with
  | none => true
  | some d => decide (today - d ≤ s.sale_date)

/-- `FROM Product p LEFT JOIN ProductSales ps ON p.id = ps.product_id
[AND window] WHERE p.store_id = ?`: one row per product/matching-sale
pair, and a single `NULL`-extended row for a product with no match. -/
def kpiJoin (today : ℤ) (window : Option ℤ) (sid : ℕ)
    (products : List Product) (sales : List Sale) :
    List (Product × Option Sale) :=
  (products.filter fun p => p.store_id == sid).flatMap fun p =>
    let ms := sales.filter fun s =>
      s.product_id == p.id && inWindow today window s
    if ms.isEmpty then [(p, none)] else ms.map fun s => (p, some s)

/-- The structure returned by `GET /kpis`. -/
structure KpiResult where
  total_investment : ℚ
  total_sales_value : ℚ
  total_profit : ℚ
  profit_margin : ℚ
  stock_value : ℚ
  out_of_stock_percentage : ℚ
deriving Repr, DecidableEq

/-- The `GET /kpis` aggregate query, field by field.  `window = none`
embeds the first revision (no date restriction on the join);
`window = some 30` embeds the second (trailing 30 days). -/
def kpis (today : ℤ) (window : Option ℤ) (sid : ℕ)
    (products : List Product) (sales : List Sale) : KpiResult :=
  let rows := kpiJoin today window sid products sales
  let sumInv := sqlSum (rows.map fun r =>
    r.2.map fun s => r.1.supplier_purchase_price * (s.quantity_sold : ℚ))
  let sumAmt := sqlSum (rows.map fun r => r.2.map (·.total_sale_amount))
  let sumProfit := sqlSum (rows.map fun r => r.2.map (·.profit))
  let sumStock := sqlSum (rows.map fun r =>
    some (r.1.supplier_purchase_price * (r.1.stock_quantity : ℚ)))
  let zeroCnt := sqlSum (rows.map fun r =>
    some (if r.1.stock_quantity == 0 then (1 : ℚ) else 0))
  { total_investment := ifnull sumInv 0
    total_sales_value := ifnull sumAmt 0
    total_profit := ifnull sumProfit 0
    profit_margin :=
      ifnull ((sqlDiv sumProfit (nullif sumAmt 0)).map fun q =>
        mysqlRound2 (q * 100)) 0
    stock_value := ifnull sumStock 0
    out_of_stock_percentage :=
      ifnull ((sqlDiv zeroCnt (nullif (some (rows.length : ℚ)) 0)).map fun q =>
        mysqlRound2 (q * 100)) 0 }

lemma mysqlRoundInt_intCast (n : ℤ) : mysqlRoundInt (n : ℚ) = n := by
  unfold mysqlRoundInt
  have hhalf : (⌊(1 / 2 : ℚ)⌋ : ℤ) = 0 := by
    rw [Int.floor_eq_iff]
    norm_num
  by_cases h : (0 : ℚ) ≤ (n : ℚ)
  · rw [if_pos h, Int.floor_int_add, hhalf, add_zero]
  · rw [if_neg h]
    have : (-(n : ℚ)) = ((-n : ℤ) : ℚ) := by push_cast; ring
    rw [this, Int.floor_int_add, hhalf, add_zero, neg_neg]

/-- `mysqlRound2` is the identity on integers. -/
lemma mysqlRound2_int (x m : ℚ) (n : ℤ) (hx : x = (n : ℚ)) (hm : m = (n : ℚ)) :
    mysqlRound2 x = m := by
  subst hx
  subst hm
  unfold mysqlRound2
  rw [show ((n : ℚ) * 100) = ((n * 100 : ℤ) : ℚ) by push_cast; ring,
    mysqlRoundInt_intCast]
  push_cast
  field_simp

/-- C1: the single-product, single-sale scenario of spec §8.  One product
(purchase 10, sold 20, stock 0) and one sale of it (quantity 2, unit price
20, dated today).  Both KPI revisions return total_investment 20,
total_sales_value 40, total_profit 20, profit_margin 50 and
out_of_stock_percentage 100 (stock_value is 0). -/
theorem kpi_scenario_C1 :
    (kpis 100 (some 30) 1
        [⟨1, 1, "p", 10, some 20, 0, none, 90⟩]
        [⟨1, 1, 2, 20, 40, 20, 100⟩] =
      ⟨20, 40, 20, 50, 0, 100⟩) ∧
    (kpis 100 none 1
        [⟨1, 1, "p", 10, some 20, 0, none, 90⟩]
        [⟨1, 1, 2, 20, 40, 20, 100⟩] =
      ⟨20, 40, 20, 50, 0, 100⟩) := by
  constructor <;>
  · unfold kpis kpiJoin
    simp [inWindow, sqlSum, sqlDiv, nullif, ifnull]
    norm_num
    constructor
    · refine mysqlRound2_int _ _ 50 ?_ ?_ <;> norm_num
    · refine mysqlRound2_int _ _ 100 ?_ ?_ <;> norm_num

/-- C2: the `stock_value` column is summed over the `LEFT JOIN` rows, so a
product with two sales inside the window contributes
`purchase_price * stock_quantity` twice.  One product (purchase 10,
stock 3) with two sales dated today yields `stock_value = 60`, while the
per-product sum the spec demands is `10 * 3 = 30`. -/
theorem kpi_stock_value_fanout_C2 :
    (kpis 100 (some 30) 1
        [⟨1, 1, "p", 10, some 20, 3, none, 90⟩]
        [⟨1, 1, 1, 20, 20, 10, 100⟩, ⟨2, 1, 1, 20, 20, 10, 100⟩]).stock_value
      = 60 ∧
    (([⟨1, 1, "p", 10, some 20, 3, none, 90⟩] : List Product).map fun p =>
        p.supplier_purchase_price * (p.stock_quantity : ℚ)).sum = 30 ∧
    (60 : ℚ) ≠ 30 := by
  refine ⟨?_, by norm_num, by norm_num⟩
  unfold kpis kpiJoin
  simp [inWindow, sqlSum, sqlDiv, nullif, ifnull]
  norm_num

/-- C3: `out_of_stock_percentage` counts `LEFT JOIN` rows, not distinct
products.  An out-of-stock product with three sales in the window next to
an in-stock product with none yields `round(3/4*100, 2) = 75`, while the
per-product ratio the spec demands is `round(1/2*100, 2) = 50`. -/
theorem kpi_out_of_stock_fanout_C3 :
    (kpis 100 (some 30) 1
        [⟨1, 1, "a", 10, some 20, 0, none, 90⟩,
         ⟨2, 1, "b", 10, some 20, 5, none, 90⟩]
        [⟨1, 1, 1, 20, 20, 10, 100⟩, ⟨2, 1, 1, 20, 20, 10, 100⟩,
         ⟨3, 1, 1, 20, 20, 10, 100⟩]).out_of_stock_percentage = 75 ∧
    ((([⟨1, 1, "a", 10, some 20, 0, none, 90⟩,
        ⟨2, 1, "b", 10, some 20, 5, none, 90⟩] : List Product).filter fun p =>
          p.stock_quantity == 0).length : ℚ) /
      (([⟨1, 1, "a", 10, some 20, 0, none, 90⟩,
         ⟨2, 1, "b", 10, some 20, 5, none, 90⟩] : List Product).length : ℚ)
        * 100 = 50 ∧
    (75 : ℚ) ≠ 50 := by
  have hcnt : (([⟨1, 1, "a", 10, some 20, 0, none, 90⟩,
      ⟨2, 1, "b", 10, some 20, 5, none, 90⟩] : List Product).filter fun p =>
        p.stock_quantity == 0).length = 1 := by decide
  refine ⟨?_, by rw [hcnt]; norm_num, by norm_num⟩
  unfold kpis kpiJoin
  simp [inWindow, sqlSum, sqlDiv, nullif, ifnull]
  norm_num
  refine mysqlRound2_int _ _ 75 ?_ ?_ <;> norm_num

lemma filterMap_map_opt (rows : List (Product × Option Sale)) (f : Sale → ℚ) :
    ((rows.map fun r => r.2.map f).filterMap id) =
      (rows.filterMap (·.2)).map f := by
  induction rows with
  | nil => simp
  | cons r t ih =>
    cases h : r.2 <;> simp [List.filterMap_cons, h, ih]

lemma kpiJoin_all_none (today : ℤ) (window : Option ℤ) (sid : ℕ)
    (products : List Product) (sales : List Sale)
    (h : ∀ s ∈ sales, ∀ p ∈ products, p.store_id = sid →
      s.product_id = p.id → inWindow today window s = false) :
    ∀ r ∈ kpiJoin today window sid products sales, r.2 = none := by
  intro r hr
  unfold kpiJoin at hr
  simp only [List.mem_flatMap] at hr
  obtain ⟨p, hp, hr⟩ := hr
  rw [List.mem_filter] at hp
  have hms : (sales.filter fun s =>
      s.product_id == p.id && inWindow today window s) = [] := by
    rw [List.filter_eq_nil_iff]
    intro s hs
    simp only [Bool.and_eq_true, beq_iff_eq, not_and]
    intro hpid
    rw [h s hs p hp.1 (by simpa using hp.2) hpid]
    simp
  rw [hms] at hr
  simp at hr
  rw [hr]

/-- C4, counterexample to the claim as stated: a sale with unit price 0
(quantity 1, product purchase price 5) has `total_sale_amount = 0` but
`profit = -5`.  The windowed amount sum is 0, yet the KPI operation
returns `total_profit = -5`, not 0. -/
theorem kpi_zero_amount_counterexample_C4 :
    (([⟨1, 1, 1, 0, 0, -5, 100⟩] : List Sale).map
        (·.total_sale_amount)).sum = 0 ∧
    (kpis 100 (some 30) 1
        [⟨1, 1, "p", 5, some 20, 1, none, 90⟩]
        [⟨1, 1, 1, 0, 0, -5, 100⟩]).total_sales_value = 0 ∧
    (kpis 100 (some 30) 1
        [⟨1, 1, "p", 5, some 20, 1, none, 90⟩]
        [⟨1, 1, 1, 0, 0, -5, 100⟩]).total_profit = -5 := by
  refine ⟨by norm_num, ?_, ?_⟩ <;>
  · unfold kpis kpiJoin
    simp [inWindow, sqlSum, sqlDiv, nullif, ifnull]

/-- C4 amended: when the tenant has no sale event in the window the KPI
operation returns `total_profit = total_sales_value = 0` and
`profit_margin = 0`; whenever `total_sales_value = 0` the margin is 0
(never a division error or NULL); otherwise the margin is
`round(total_profit / total_sales_value * 100, 2)`.  `total_profit`
itself is the sum of the joined profits, which need not vanish just
because the amount sum does. -/
theorem kpi_degenerate_margin_C4 (today : ℤ) (window : Option ℤ) (sid : ℕ)
    (products : List Product) (sales : List Sale) :
    ((∀ s ∈ sales, ∀ p ∈ products, p.store_id = sid →
        s.product_id = p.id → inWindow today window s = false) →
      (kpis today window sid products sales).total_profit = 0 ∧
      (kpis today window sid products sales).total_sales_value = 0 ∧
      (kpis today window sid products sales).profit_margin = 0) ∧
    ((kpis today window sid products sales).total_sales_value = 0 →
      (kpis today window sid products sales).profit_margin = 0) ∧
    ((kpis today window sid products sales).total_sales_value ≠ 0 →
      (kpis today window sid products sales).profit_margin =
        mysqlRound2 ((kpis today window sid products sales).total_profit /
          (kpis today window sid products sales).total_sales_value * 100)) := by
  set rows := kpiJoin today window sid products sales with hrows
  have hamt : (rows.map fun r => r.2.map (·.total_sale_amount)).filterMap id =
      (rows.filterMap (·.2)).map (·.total_sale_amount) := filterMap_map_opt ..
  have hprof : (rows.map fun r => r.2.map (·.profit)).filterMap id =
      (rows.filterMap (·.2)).map (·.profit) := filterMap_map_opt ..
  refine ⟨?_, ?_, ?_⟩
  · intro h
    have hnone : ∀ r ∈ rows, r.2 = none := kpiJoin_all_none _ _ _ _ _ h
    have hmatched : rows.filterMap (·.2) = [] := by
      rw [List.filterMap_eq_nil_iff]
      exact hnone
    unfold kpis
    rw [← hrows]
    simp only [sqlSum, hamt, hprof, hmatched]
    simp [ifnull, nullif, sqlDiv]
  · intro h
    unfold kpis at h ⊢
    rw [← hrows] at h ⊢
    simp only [sqlSum, hamt] at h ⊢
    by_cases hm : ((rows.filterMap (·.2)).map (·.total_sale_amount)).isEmpty
    · simp [hm, ifnull, nullif, sqlDiv]
    · simp only [hm, if_false, Bool.false_eq_true, ifnull, Option.getD] at h
      simp [hm, ifnull, nullif, sqlDiv, h]
  · intro h
    unfold kpis at h ⊢
    rw [← hrows] at h ⊢
    simp only [sqlSum, hamt, hprof] at h ⊢
    by_cases hm : ((rows.filterMap (·.2)).map (·.total_sale_amount)).isEmpty
    · simp [hm, ifnull] at h
    · have hm' : ¬ ((rows.filterMap (·.2)).map (·.profit)).isEmpty := by
        simpa [List.isEmpty_iff] using (by simpa [List.isEmpty_iff] using hm :
          rows.filterMap (·.2) ≠ [])
      simp only [hm, hm', if_false, Bool.false_eq_true, ifnull, Option.getD] at h ⊢
      rw [nullif, Option.bind]
      simp only [if_neg h, sqlDiv, Option.map, ifnull, Option.getD]

/-- Witness for `kpi_degenerate_margin_C4`, discharging each hypothesis at
concrete inputs: an empty sales history (all three degenerate fields 0)
and the C1 scenario (margin equals the rounded ratio). -/
theorem kpi_degenerate_margin_C4_witness :
    ((kpis 100 (some 30) 1 [⟨1, 1, "p", 10, some 20, 2, none, 90⟩] []).total_profit = 0 ∧
      (kpis 100 (some 30) 1 [⟨1, 1, "p", 10, some 20, 2, none, 90⟩] []).total_sales_value = 0 ∧
      (kpis 100 (some 30) 1 [⟨1, 1, "p", 10, some 20, 2, none, 90⟩] []).profit_margin = 0) ∧
    (kpis 100 (some 30) 1 [⟨1, 1, "p", 10, some 20, 2, none, 90⟩] []).profit_margin = 0 ∧
    (kpis 100 (some 30) 1 [⟨1, 1, "p", 10, some 20, 0, none, 90⟩]
        [⟨1, 1, 2, 20, 40, 20, 100⟩]).profit_margin =
      mysqlRound2 ((kpis 100 (some 30) 1 [⟨1, 1, "p", 10, some 20, 0, none, 90⟩]
          [⟨1, 1, 2, 20, 40, 20, 100⟩]).total_profit /
        (kpis 100 (some 30) 1 [⟨1, 1, "p", 10, some 20, 0, none, 90⟩]
          [⟨1, 1, 2, 20, 40, 20, 100⟩]).total_sales_value * 100) :=
  ⟨(kpi_degenerate_margin_C4 100 (some 30) 1 _ _).1 (by simp),
   (kpi_degenerate_margin_C4 100 (some 30) 1 _ _).2.1
     (by unfold kpis kpiJoin; simp [inWindow, sqlSum, sqlDiv, nullif, ifnull]),
   (kpi_degenerate_margin_C4 100 (some 30) 1 _ _).2.2
     (by unfold kpis kpiJoin; simp [inWindow, sqlSum, sqlDiv, nullif, ifnull])⟩

/-- One output row of `GET /sales-trend`. -/
structure TrendRow where
  date : ℤ
  total_sales : ℚ
  total_profit : ℚ
  total_units_sold : ℕ
deriving Repr, DecidableEq

/-- `FROM ProductSales ps JOIN Product p ON ps.product_id = p.id WHERE
p.store_id = ? AND ps.sale_date >= DATE_SUB(CURDATE(), INTERVAL ? DAY)`:
each windowed sale occurs once per matching catalog product of the
tenant (product ids are the table's primary key, so at most once). -/
def trendRows (today : ℤ) (period : ℤ) (sid : ℕ)
    (products : List Product) (sales : List Sale) : List Sale :=
  (sales.filter fun s => decide (today - period ≤ s.sale_date)).flatMap fun s =>
    (products.filter fun p => p.id == s.product_id && p.store_id == sid).map
      fun _ => s

/-- The `GET /sales-trend` query: group the joined rows by sale date,
aggregate each group, order ascending by date.  Sale dates are already
day-granular, so `DATE(ps.sale_date)` is the date itself. -/
def salesTrend (today : ℤ) (period : ℤ) (sid : ℕ)
    (products : List Product) (sales : List Sale) : List TrendRow :=
  let rows := trendRows today period sid products sales
  let dates := List.insertionSort (· ≤ ·) (rows.map (·.sale_date)).dedup
  dates.map fun d =>
    let ds := rows.filter fun s => s.sale_date == d
    ⟨d, (ds.map (·.total_sale_amount)).sum, (ds.map (·.profit)).sum,
      (ds.map (·.quantity_sold)).sum⟩

/-- C5: the trend has exactly one entry per calendar day on which the
tenant has at least one windowed sale event — its dates are strictly
ascending (hence pairwise distinct and sorted), and a day appears iff
some sale of a catalog product of the tenant falls on it within the
window; days without sales are absent. -/
lemma map_date_mk (rows : List Sale) (l : List ℤ) :
    (l.map fun d =>
      let ds := rows.filter fun s => s.sale_date == d
      (⟨d, (ds.map (·.total_sale_amount)).sum, (ds.map (·.profit)).sum,
        (ds.map (·.quantity_sold)).sum⟩ : TrendRow)).map (·.date) = l := by
  induction l with
  | nil => rfl
  | cons a t ih => simp_all

theorem sales_trend_days_C5 (today : ℤ) (period : ℤ) (sid : ℕ)
    (products : List Product) (sales : List Sale) :
    ((salesTrend today period sid products sales).map (·.date)).Sorted (· < ·) ∧
    ∀ d : ℤ, (d ∈ (salesTrend today period sid products sales).map (·.date) ↔
      ∃ s ∈ sales, s.sale_date = d ∧ today - period ≤ s.sale_date ∧
        ∃ p ∈ products, p.id = s.product_id ∧ p.store_id = sid) := by
  have hmap : (salesTrend today period sid products sales).map (·.date) =
      List.insertionSort (· ≤ ·)
        ((trendRows today period sid products sales).map (·.sale_date)).dedup :=
    map_date_mk _ _
  constructor
  · rw [hmap]
    refine List.Sorted.lt_of_le (List.sorted_insertionSort _ _) ?_
    exact ((List.perm_insertionSort _ _).nodup_iff).mpr (List.nodup_dedup _)
  · intro d
    rw [hmap, (List.perm_insertionSort _ _).mem_iff, List.mem_dedup,
      List.mem_map]
    constructor
    · rintro ⟨s, hs, rfl⟩
      unfold trendRows at hs
      simp only [List.mem_flatMap, List.mem_map, List.mem_filter,
        Bool.and_eq_true, beq_iff_eq, decide_eq_true_eq] at hs
      obtain ⟨s', ⟨hs', hw⟩, p, ⟨⟨hp, hpid, hpsid⟩, rfl⟩⟩ := hs
      exact ⟨s', hs', rfl, hw, p, hp, hpid, by simpa using hpsid⟩
    · rintro ⟨s, hs, rfl, hw, p, hp, hpid, hpsid⟩
      refine ⟨s, ?_, rfl⟩
      unfold trendRows
      simp only [List.mem_flatMap, List.mem_map, List.mem_filter,
        Bool.and_eq_true, beq_iff_eq, decide_eq_true_eq]
      exact ⟨s, ⟨hs, hw⟩, p, ⟨⟨hp, hpid, by simpa using hpsid⟩, rfl⟩⟩

/-- One row of the best-selling ranking of `GET /top-products`. -/
structure QtyRow where
  id : ℕ
  title : String
  total_quantity : ℕ
deriving Repr, DecidableEq

/-- One row of the most-profitable ranking of `GET /top-products`. -/
structure ProfitRow where
  id : ℕ
  title : String
  total_profit : ℚ
deriving Repr, DecidableEq

/-- Grouped rows of the best-selling query: `Product LEFT JOIN
ProductSales` grouped by `p.id, p.title` (the id is the table's primary
key, so one group per product), `IFNULL(SUM(ps.quantity_sold), 0)`. -/
def bestSellingRows (sid : ℕ) (products : List Product) (sales : List Sale) :
    List QtyRow :=
  (products.filter fun p => p.store_id == sid).map fun p =>
    ⟨p.id, p.title,
      ((sales.filter fun s => s.product_id == p.id).map (·.quantity_sold)).sum⟩

/-- Grouped rows of the most-profitable query: `IFNULL(SUM(ps.profit), 0)`
per product. -/
def mostProfitableRows (sid : ℕ) (products : List Product)
    (sales : List Sale) : List ProfitRow :=
  (products.filter fun p => p.store_id == sid).map fun p =>
    ⟨p.id, p.title,
      ((sales.filter fun s => s.product_id == p.id).map (·.profit)).sum⟩

/-- `ORDER BY key DESC LIMIT 5` as a relation: SQL fixes only that the
output is the first five rows of some permutation of the grouped rows
that is non-increasing on the key; the order of key-ties is not
specified. -/
def isTop5Result {α β : Type} [LinearOrder β] (key : α → β)
    (rows : List α) (out : List α) : Prop :=
  ∃ ordered : List α, ordered.Perm rows ∧
    ordered.Pairwise (fun a b => key b ≤ key a) ∧ out = ordered.take 5

/-- C6, counterexample to the tie-break clause: with two products of the
tenant and no sales, both grouped rows have quantity 0, and the output
listing product 2 before product 1 is an admissible result of
`ORDER BY total_quantity DESC LIMIT 5`, yet its equal-quantity entries
are not in ascending id order.  The code states no secondary sort key. -/
theorem best_selling_tie_counterexample_C6 :
    isTop5Result (·.total_quantity)
      (bestSellingRows 1
        [⟨1, 1, "a", 10, some 20, 1, none, 90⟩,
         ⟨2, 1, "b", 10, some 20, 1, none, 90⟩] [])
      [⟨2, "b", 0⟩, ⟨1, "a", 0⟩] ∧
    ¬ (([⟨2, "b", 0⟩, ⟨1, "a", 0⟩] : List QtyRow).Pairwise fun a b =>
        a.total_quantity = b.total_quantity → a.id < b.id) := by
  constructor
  · refine ⟨[⟨2, "b", 0⟩, ⟨1, "a", 0⟩], ?_, by decide, rfl⟩
    have hrows : bestSellingRows 1
        [⟨1, 1, "a", 10, some 20, 1, none, 90⟩,
         ⟨2, 1, "b", 10, some 20, 1, none, 90⟩] [] =
        [⟨1, "a", 0⟩, ⟨2, "b", 0⟩] := by
      simp [bestSellingRows]
    rw [hrows]
    exact List.Perm.swap _ _ _
  · decide

lemma isTop5Result_spec {α β : Type} [LinearOrder β] (key : α → β)
    (rows out : List α) (h : isTop5Result key rows out) :
    out.length ≤ 5 ∧ out.Pairwise fun a b => key b ≤ key a := by
  obtain ⟨ordered, _, hsort, rfl⟩ := h
  constructor
  · simp
  · exact List.Pairwise.sublist (List.take_sublist _ _) hsort

/-- C6 amended: every admissible result of the best-selling query has at
most 5 entries and is non-increasing on cumulative quantity sold, and
every admissible result of the most-profitable query has at most 5
entries and is non-increasing on cumulative profit; the order among
key-ties is left unspecified by the code. -/
theorem top5_rankings_C6 (sid : ℕ) (products : List Product)
    (sales : List Sale) (out : List QtyRow) (outP : List ProfitRow)
    (h : isTop5Result (·.total_quantity) (bestSellingRows sid products sales)
      out)
    (hP : isTop5Result (·.total_profit) (mostProfitableRows sid products sales)
      outP) :
    (out.length ≤ 5 ∧
      out.Pairwise fun a b => b.total_quantity ≤ a.total_quantity) ∧
    (outP.length ≤ 5 ∧
      outP.Pairwise fun a b => b.total_profit ≤ a.total_profit) :=
  ⟨isTop5Result_spec _ _ _ h, isTop5Result_spec _ _ _ hP⟩

/-- Witness for `top5_rankings_C6` at a one-product tenant with no sales. -/
theorem top5_rankings_C6_witness :
    (([⟨1, "a", 0⟩] : List QtyRow).length ≤ 5 ∧
      ([⟨1, "a", 0⟩] : List QtyRow).Pairwise
        (fun a b => b.total_quantity ≤ a.total_quantity)) ∧
    (([⟨1, "a", 0⟩] : List ProfitRow).length ≤ 5 ∧
      ([⟨1, "a", 0⟩] : List ProfitRow).Pairwise
        (fun a b => b.total_profit ≤ a.total_profit)) :=
  top5_rankings_C6 1 [⟨1, 1, "a", 10, some 20, 1, none, 90⟩] [] _ _
    ⟨[⟨1, "a", 0⟩], by simp [bestSellingRows], by simp, rfl⟩
    ⟨[⟨1, "a", 0⟩], by simp [mostProfitableRows], by simp, rfl⟩

/-- One grouped row of the `GET /forecast` query:
`IFNULL(SUM(ps.quantity_sold)/?, 0) AS avg_daily_sold` over the sales of
the product inside the trailing window, with the product's stock. -/
structure ForecastRow where
  id : ℕ
  title : String
  avg_daily_sold : ℚ
  stock_quantity : ℕ
deriving Repr, DecidableEq

/-- The `GET /forecast` SQL: one row per catalog product of the tenant;
`avg_daily_sold` is 0 when the product has no windowed sale (`SUM` is
`NULL`), else the quantity sum divided by the period (MySQL yields `NULL`,
hence 0, for period 0; rational division by zero is also 0). -/
def forecastRows (today period : ℤ) (sid : ℕ) (products : List Product)
    (sales : List Sale) : List ForecastRow :=
  (products.filter fun p => p.store_id == sid).map fun p =>
    let qs := (sales.filter fun s =>
      s.product_id == p.id && inWindow today (some period) s).map
        (·.quantity_sold)
    ⟨p.id, p.title, if qs.isEmpty then 0 else (qs.sum : ℚ) / (period : ℚ),
      p.stock_quantity⟩

/-- One entry of the `recommended_stock` array built in JavaScript. -/
structure RecRow where
  product_id : ℕ
  title : String
  recommended_quantity : ℤ
deriving Repr, DecidableEq

/-- The JavaScript mapping
`Math.max(0, Math.round(item.avg_daily_sold * period - item.stock_quantity))`;
`Math.round` is rounding half towards positive infinity, which is
Mathlib's `round`. -/
def recommendedStock (rows : List ForecastRow) (period : ℤ) : List RecRow :=
  rows.map fun item =>
    ⟨item.id, item.title,
      max 0 (round (item.avg_daily_sold * (period : ℚ) -
        (item.stock_quantity : ℚ)))⟩

/-- The `predicted_sales` reduction of `GET /forecast`. -/
def predictedSales (rows : List ForecastRow) (period : ℤ) : ℚ :=
  (rows.map fun s => s.avg_daily_sold * (period : ℚ)).sum

lemma recommendedStock_scenario :
    recommendedStock [⟨1, "p", 2, 10⟩] 30 = [⟨1, "p", 50⟩] := by
  unfold recommendedStock
  show [(⟨1, "p",
    max 0 (round ((2 : ℚ) * ((30 : ℤ) : ℚ) - ((10 : ℕ) : ℚ)))⟩ : RecRow)] =
    [⟨1, "p", 50⟩]
  rw [show ((2 : ℚ) * ((30 : ℤ) : ℚ) - ((10 : ℕ) : ℚ)) = ((50 : ℤ) : ℚ) by
    push_cast; norm_num]
  rw [round_intCast]
  rfl

/-- C7: every recommended quantity equals
`max(0, round(avg_daily_sold * horizon - stock_quantity))` of its forecast
row — hence it is never negative — and the spec scenario (horizon 30,
60 units sold in the trailing 30 days, stock 10) yields
`avg_daily_sold = 2` and `recommended_quantity = 50`. -/
theorem forecast_recommended_C7 :
    (∀ (rows : List ForecastRow) (period : ℤ),
      ∀ r ∈ recommendedStock rows period, 0 ≤ r.recommended_quantity) ∧
    (∀ (rows : List ForecastRow) (period : ℤ), ∀ item ∈ rows,
      (⟨item.id, item.title,
        max 0 (round (item.avg_daily_sold * (period : ℚ) -
          (item.stock_quantity : ℚ)))⟩ : RecRow) ∈
        recommendedStock rows period) ∧
    forecastRows 100 30 1 [⟨1, 1, "p", 10, some 20, 10, none, 90⟩]
        [⟨1, 1, 60, 20, 1200, 600, 100⟩] = [⟨1, "p", 2, 10⟩] ∧
    recommendedStock
        (forecastRows 100 30 1 [⟨1, 1, "p", 10, some 20, 10, none, 90⟩]
          [⟨1, 1, 60, 20, 1200, 600, 100⟩]) 30 = [⟨1, "p", 50⟩] := by
  have hrows : forecastRows 100 30 1 [⟨1, 1, "p", 10, some 20, 10, none, 90⟩]
      [⟨1, 1, 60, 20, 1200, 600, 100⟩] = [⟨1, "p", 2, 10⟩] := by
    unfold forecastRows
    simp [inWindow]
    norm_num
  refine ⟨?_, ?_, hrows, ?_⟩
  · intro rows period r hr
    unfold recommendedStock at hr
    rw [List.mem_map] at hr
    obtain ⟨item, _, rfl⟩ := hr
    exact le_max_left 0 _
  · intro rows period item hitem
    unfold recommendedStock
    rw [List.mem_map]
    exact ⟨item, hitem, rfl⟩
  · rw [hrows]
    exact recommendedStock_scenario

/-- Witness for `forecast_recommended_C7`: membership hypotheses
discharged on the concrete scenario row. -/
theorem forecast_recommended_C7_witness :
    (0 : ℤ) ≤ (RecRow.mk 1 "p" 50).recommended_quantity ∧
    (⟨(1 : ℕ), "p", max 0 (round ((2 : ℚ) * ((30 : ℤ) : ℚ) -
        ((10 : ℕ) : ℚ)))⟩ : RecRow) ∈
      recommendedStock [⟨1, "p", 2, 10⟩] 30 :=
  ⟨forecast_recommended_C7.1 [⟨1, "p", 2, 10⟩] 30 ⟨1, "p", 50⟩
      (by rw [recommendedStock_scenario]; exact List.mem_singleton.mpr rfl),
   forecast_recommended_C7.2.1 [⟨1, "p", 2, 10⟩] 30 ⟨1, "p", 2, 10⟩
      (List.mem_singleton.mpr rfl)⟩

/-- The raw margin expression of the `GET /alerts` high-profit query:
`ROUND((supplier_sold_price - supplier_purchase_price)/supplier_sold_price
*100, 2)` with MySQL semantics — `NULL` when the sold price is `NULL`
(propagation) or zero (division by zero). -/
def alertMarginExpr (p : Product) : Option ℚ :=
  match p.supplier_sold_price with
  | none => none
  | some sp =>
    if sp = 0 then none
    else some (mysqlRound2 ((sp - p.supplier_purchase_price) / sp * 100))

/-- The guarded margin of `GET /profit-insights`:
`CASE WHEN supplier_sold_price IS NOT NULL AND supplier_sold_price > 0
THEN ROUND(...) ELSE 0 END`. -/
def margin_percent (p : Product) : ℚ :=
  match p.supplier_sold_price with
  | none => 0
  | some sp =>
    if 0 < sp then mysqlRound2 ((sp - p.supplier_purchase_price) / sp * 100)
    else 0

/-- The `GET /alerts` high-profit query: the tenant's products kept by
`HAVING margin_percent >= 40`; a `NULL` margin fails the comparison. -/
def highProfitAlerts (sid : ℕ) (products : List Product) : List Product :=
  (products.filter fun p => p.store_id == sid).filter fun p =>
    match alertMarginExpr p with
    | none => false
    | some m => decide (40 ≤ m)

/-- C8: under the data-model invariant that sold prices are non-negative,
the high-margin alert list is exactly the tenant's products whose guarded
margin (0 for a zero or `NULL` sold price) is at least 40, and every
listed product has a strictly positive, non-`NULL` sold price. -/
theorem high_margin_alerts_C8 (sid : ℕ) (products : List Product)
    (hnn : ∀ p ∈ products, ∀ sp, p.supplier_sold_price = some sp → 0 ≤ sp) :
    highProfitAlerts sid products =
      (products.filter fun p => p.store_id == sid).filter
        (fun p => decide (40 ≤ margin_percent p)) ∧
    ∀ p ∈ highProfitAlerts sid products,
      ∃ sp, p.supplier_sold_price = some sp ∧ 0 < sp := by
  have key : ∀ p ∈ products.filter (fun p => p.store_id == sid),
      (match alertMarginExpr p with
        | none => false
        | some m => decide (40 ≤ m)) = decide (40 ≤ margin_percent p) := by
    intro p hp
    have hp' : p ∈ products := (List.mem_filter.mp hp).1
    cases hsold : p.supplier_sold_price with
    | none =>
      have h1 : alertMarginExpr p = none := by simp [alertMarginExpr, hsold]
      have h2 : margin_percent p = 0 := by simp [margin_percent, hsold]
      rw [h1, h2]
      show false = decide ((40 : ℚ) ≤ 0)
      symm
      rw [decide_eq_false_iff_not]
      norm_num
    | some sp =>
      have hle : 0 ≤ sp := hnn p hp' sp hsold
      by_cases hz : sp = 0
      · have h1 : alertMarginExpr p = none := by
          simp [alertMarginExpr, hsold, hz]
        have h2 : margin_percent p = 0 := by
          simp [margin_percent, hsold, hz]
        rw [h1, h2]
        show false = decide ((40 : ℚ) ≤ 0)
        symm
        rw [decide_eq_false_iff_not]
        norm_num
      · have hpos : 0 < sp := lt_of_le_of_ne hle (Ne.symm hz)
        have h1 : alertMarginExpr p =
            some (mysqlRound2 ((sp - p.supplier_purchase_price) / sp * 100)) := by
          simp [alertMarginExpr, hsold, hz]
        have h2 : margin_percent p =
            mysqlRound2 ((sp - p.supplier_purchase_price) / sp * 100) := by
          simp [margin_percent, hsold, hpos]
        rw [h1, h2]
  constructor
  · exact List.filter_congr key
  · intro p hp
    unfold highProfitAlerts at hp
    rw [List.mem_filter] at hp
    obtain ⟨hp1, hp2⟩ := hp
    have hp' : p ∈ products := (List.mem_filter.mp hp1).1
    cases hsold : p.supplier_sold_price with
    | none =>
      have h1 : alertMarginExpr p = none := by simp [alertMarginExpr, hsold]
      rw [h1] at hp2
      exact Bool.noConfusion hp2
    | some sp =>
      refine ⟨sp, rfl, ?_⟩
      have hle : 0 ≤ sp := hnn p hp' sp hsold
      rcases lt_or_eq_of_le hle with hpos | hz
      · exact hpos
      · exfalso
        have h1 : alertMarginExpr p = none := by
          simp [alertMarginExpr, hsold, hz.symm]
        rw [h1] at hp2
        exact Bool.noConfusion hp2

/-- Witness for `high_margin_alerts_C8` on a one-product catalog
(purchase 10, sold 20 — margin 50). -/
theorem high_margin_alerts_C8_witness :
    (highProfitAlerts 1 [⟨1, 1, "hi", 10, some 20, 5, none, 90⟩] =
      (([⟨1, 1, "hi", 10, some 20, 5, none, 90⟩] : List Product).filter
          fun p => p.store_id == 1).filter
        (fun p => decide (40 ≤ margin_percent p))) ∧
    ∀ p ∈ highProfitAlerts 1 [⟨1, 1, "hi", 10, some 20, 5, none, 90⟩],
      ∃ sp, p.supplier_sold_price = some sp ∧ 0 < sp :=
  high_margin_alerts_C8 1 [⟨1, 1, "hi", 10, some 20, 5, none, 90⟩]
    (by
      intro p hp sp hsp
      rw [List.mem_singleton] at hp
      subst hp
      rw [Option.some.injEq] at hsp
      subst hsp
      norm_num)

/-- A uniform activity-feed entry of the store dashboard. -/
structure Activity where
  message : String
  date : ℤ
deriving Repr, DecidableEq

/-- A recent-review row as fetched for the dashboard (message prebuilt by
the SQL `CONCAT`). -/
structure ReviewRow where
  message : String
  date : ℤ
deriving Repr, DecidableEq

/-- A low-stock row as fetched for the dashboard. -/
structure LowStockRow where
  product_name : String
  date : ℤ
deriving Repr, DecidableEq

/-- A plan-expiry row as fetched for the dashboard. -/
structure PlanExpiryRow where
  message : String
  date : ℤ
deriving Repr, DecidableEq

/-- The template literal of `api/dashboard.js` for low-stock entries. -/
def lowStockMessage (name : String) : String :=
  "Product \"" ++ name ++ "\" is running low on stock"

/-- The comparator of `activities.sort((a, b) => new Date(b.date) - new
Date(a.date))` as an order relation: `a` may precede `b` iff `b.date ≤
a.date`. -/
def actGe (a b : Activity) : Prop := b.date ≤ a.date

instance : DecidableRel actGe := fun a b => Int.decLe b.date a.date

instance : IsTotal Activity actGe :=
  ⟨fun a b => (le_total a.date b.date).symm⟩

instance : IsTrans Activity actGe :=
  ⟨fun _ _ _ hab hbc => le_trans hbc hab⟩

/-- The `activities` array of `GET /store`: the three fetched lists are
mapped to the uniform shape, concatenated, and sorted descending by date.
JavaScript's `Array.prototype.sort` is a stable sort, as is insertion
sort with the same total preorder, so the two agree exactly. -/
def activities (reviews : List ReviewRow) (lowStock : List LowStockRow)
    (planExpiry : List PlanExpiryRow) : List Activity :=
  List.insertionSort actGe
    ((reviews.map fun r => ⟨r.message, r.date⟩) ++
      (lowStock.map fun l => ⟨lowStockMessage l.product_name, l.date⟩) ++
      (planExpiry.map fun p => ⟨p.message, p.date⟩))

/-- C9: for all three input lists (hence for every permutation of their
contents), the activity feed is a permutation of the concatenation of
their uniform mappings and its dates are non-increasing; the output is a
pure function of the inputs, so the order of equal-date entries is
deterministic. -/
theorem activities_sorted_C9 (reviews : List ReviewRow)
    (lowStock : List LowStockRow) (planExpiry : List PlanExpiryRow) :
    (activities reviews lowStock planExpiry).Perm
      ((reviews.map fun r => ⟨r.message, r.date⟩) ++
        (lowStock.map fun l => ⟨lowStockMessage l.product_name, l.date⟩) ++
        (planExpiry.map fun p => ⟨p.message, p.date⟩)) ∧
    (activities reviews lowStock planExpiry).Pairwise
      fun a b => b.date ≤ a.date :=
  ⟨List.perm_insertionSort actGe _, List.sorted_insertionSort actGe _⟩

/-- C10, counterexample: a sale dated 40 days before today is counted by
the revision that joins without a date restriction but not by the one
that restricts the join to the trailing 30 days, so the two KPI
structures differ (total_sales_value 40 versus 0). -/
theorem kpi_window_counterexample_C10 :
    kpis 100 none 1 [⟨1, 1, "p", 10, some 20, 1, none, 50⟩]
        [⟨1, 1, 2, 20, 40, 20, 60⟩] ≠
      kpis 100 (some 30) 1 [⟨1, 1, "p", 10, some 20, 1, none, 50⟩]
        [⟨1, 1, 2, 20, 40, 20, 60⟩] := by
  intro h
  have h1 : (kpis 100 none 1 [⟨1, 1, "p", 10, some 20, 1, none, 50⟩]
      [⟨1, 1, 2, 20, 40, 20, 60⟩]).total_sales_value = 40 := by
    unfold kpis kpiJoin
    simp [inWindow, sqlSum, sqlDiv, nullif, ifnull]
  have h2 : (kpis 100 (some 30) 1 [⟨1, 1, "p", 10, some 20, 1, none, 50⟩]
      [⟨1, 1, 2, 20, 40, 20, 60⟩]).total_sales_value = 0 := by
    unfold kpis kpiJoin
    simp [inWindow, sqlSum, sqlDiv, nullif, ifnull]
  rw [h, h2] at h1
  exact absurd h1 (by norm_num)

/-- C10 amended: the two KPI revisions agree whenever every sale event of
the history lies in the trailing 30-day window (in particular the join
restriction drops nothing); in general they differ on older sales. -/
theorem kpi_window_equiv_C10 (today : ℤ) (sid : ℕ)
    (products : List Product) (sales : List Sale)
    (h : ∀ s ∈ sales, today - 30 ≤ s.sale_date) :
    kpis today none sid products sales =
      kpis today (some 30) sid products sales := by
  have hj : kpiJoin today none sid products sales =
      kpiJoin today (some 30) sid products sales := by
    unfold kpiJoin
    have hf : ∀ p : Product,
        (sales.filter fun s => s.product_id == p.id && inWindow today none s) =
        sales.filter fun s =>
          s.product_id == p.id && inWindow today (some 30) s := by
      intro p
      apply List.filter_congr
      intro s hs
      have hw : inWindow today (some 30) s = true := by
        simp only [inWindow, decide_eq_true_eq]
        exact h s hs
      rw [hw]
      rfl
    have hfun : (fun p : Product =>
        let ms := sales.filter fun s =>
          s.product_id == p.id && inWindow today none s
        if ms.isEmpty then [(p, none)] else ms.map fun s => (p, some s)) =
        fun p : Product =>
        let ms := sales.filter fun s =>
          s.product_id == p.id && inWindow today (some 30) s
        if ms.isEmpty then [(p, none)] else ms.map fun s => (p, some s) := by
      funext p
      rw [hf p]
    rw [hfun]
  unfold kpis
  rw [hj]

/-- Witness for `kpi_window_equiv_C10`: a history whose single sale is
dated today lies inside the trailing window, so the two revisions agree. -/
theorem kpi_window_equiv_C10_witness :
    kpis 100 none 1 [⟨1, 1, "p", 10, some 20, 0, none, 90⟩]
        [⟨1, 1, 2, 20, 40, 20, 100⟩] =
      kpis 100 (some 30) 1 [⟨1, 1, "p", 10, some 20, 0, none, 90⟩]
        [⟨1, 1, 2, 20, 40, 20, 100⟩] :=
  kpi_window_equiv_C10 100 1 _ _ (by
    intro s hs
    rw [List.mem_singleton] at hs
    subst hs
    norm_num)
